import Mathlib

/-!
Verification of the DHTMLGoodies/webgl demo programs.

The repository holds three tiny TypeScript programs:
  * `src/cube.ts`        — the 2-D variant: a flat colored triangle redrawn per frame;
  * `unnamed/part_000`   — a minimal variant that only acquires a context and clears;
  * `unnamed/part_001`   — the 3-D variant: the triangle spun about the Y axis per frame.

Each program is a single `App` class: the constructor acquires a WebGL context
(falling back from "webgl" to "experimental-webgl"), compiles two shaders, links a
program, uploads one static interleaved vertex buffer, and starts a frame loop that
reschedules itself via `requestAnimationFrame` as long as a per-instance `running`
flag is true.  `stop()` clears that flag.

The development below shallowly embeds:
  * the per-instance `App` state and `stop()`;
  * the frame-loop scheduling protocol as a small transition system;
  * the GL call sequences of initialization and of one frame-loop iteration, for
    both variants, as explicit lists of symbolic calls;
  * the world-matrix computation `mat4.rotate(world, identity, angle, [0,1,0])`
    of the 3-D variant, with `cos`/`sin` of the angle abstracted as parameters;
  * shader-compile / program-link failure handling as a function of a status oracle.
-/

namespace WebGLDemo

/-! ## Per-instance App state and `stop()`

`class App` in both `cube.ts` and `part_001` declares `private canvas`, `private gl`,
`private vertexShader`, `private fragmentShader`, `private program` and
`private running: boolean = true` as instance properties.  Handles are modelled as
natural numbers. -/

/-- The instance fields of `class App` (`src/cube.ts` lines 4–10 and 114;
`part_001` lines 3–9 and 139).  Every field, including `running`, is a per-instance
property in the source (`this.canvas`, …, `this.running`). -/
structure App where
  canvas : Nat
  gl : Nat
  vertexShader : Nat
  fragmentShader : Nat
  program : Nat
  running : Bool
deriving DecidableEq, Repr

/-- `stop() { this.running = false; }` (`src/cube.ts` lines 116–118,
`part_001` lines 141–143). -/
def App.stop (a : App) : App :=
  { a with running := false }

/-- Two coexisting `App` instances; `stop()` invoked on the first. -/
def stopFirst (p : App × App) : App × App :=
  (p.1.stop, p.2)

/-- Two coexisting `App` instances; `stop()` invoked on the second. -/
def stopSecond (p : App × App) : App × App :=
  (p.1, p.2.stop)

/-- `stop()` invoked on the `i`-th instance of a list of coexisting instances. -/
def stopAt : List App → Nat → List App
  | [], _ => []
  | a :: rest, 0 => a.stop :: rest
  | a :: rest, i + 1 => a :: stopAt rest i

/-- A concrete first instance (arbitrary distinct handles). -/
def appA : App :=
  { canvas := 1, gl := 2, vertexShader := 3, fragmentShader := 4, program := 5,
    running := true }

/-- A concrete second instance. -/
def appB : App :=
  { canvas := 6, gl := 7, vertexShader := 8, fragmentShader := 9, program := 10,
    running := true }

/-! ## The frame-loop scheduling protocol

`mainRenderLoop` (`src/cube.ts` lines 120–133, `part_001` lines 145–166) defines a
closure `loop` that draws a frame and then, only if `this.running` is still true,
schedules the next iteration with `window.requestAnimationFrame(() => loop())`.
The flag is observed once per frame, after drawing.  `stop()` runs on the same
single-threaded callback chain, between frame callbacks.

State: whether the flag is set (`running`) and whether a frame callback is
currently pending (`scheduled`).  Initially both hold: the constructor calls
`mainRenderLoop`, which invokes `loop()` immediately. -/

/-- Scheduler-visible state of one `App`'s frame loop. -/
structure LoopState where
  running : Bool
  scheduled : Bool
deriving DecidableEq, Repr

/-- State when `mainRenderLoop` is entered: the flag initialized to `true`
and the first invocation of `loop` pending. -/
def initLoop : LoopState :=
  { running := true, scheduled := true }

/-- Events on the callback chain: a frame callback firing, or `stop()` running. -/
inductive Ev
  | frame
  | stop
deriving DecidableEq, Repr

/-- One event.  A `frame` event can only fire while a callback is pending; it
draws, then reads `running` and schedules the next iteration exactly when the
flag still holds.  A `stop` event clears the flag and nothing else. -/
def step : LoopState → Ev → Option LoopState
  | s, .frame =>
      if s.scheduled then some { running := s.running, scheduled := s.running }
      else none
  | s, .stop => some { s with running := false }

/-- Run a sequence of events from a state; `none` if an impossible event occurs. -/
def runLoop : LoopState → List Ev → Option LoopState
  | s, [] => some s
  | s, e :: rest =>
      match step s e with
      | some s2 => runLoop s2 rest
      | none => none

/-- Number of frames rendered in an event sequence. -/
def countFrames (evs : List Ev) : Nat :=
  evs.countP fun e =>
    match e with
    | .frame => true
    | .stop => false

theorem runLoop_append (l1 l2 : List Ev) :
    ∀ s : LoopState, runLoop s (l1 ++ l2) =
      (runLoop s l1).bind fun m => runLoop m l2 := by
  induction l1 with
  | nil => intro s; rfl
  | cons e rest ih =>
      intro s
      simp only [List.cons_append, runLoop]
      cases step s e with
      | none => rfl
      | some s2 => exact ih s2

theorem frames_bounded_of_not_running :
    ∀ (evs : List Ev) (s s' : LoopState), s.running = false →
      runLoop s evs = some s' →
      countFrames evs ≤ (if s.scheduled then 1 else 0) := by
  intro evs
  induction evs with
  | nil =>
      intro s s' _ _
      simp [countFrames]
  | cons e rest ih =>
      intro s s' hrun hr
      cases e with
      | frame =>
          by_cases hs : s.scheduled
          · have hstep : step s .frame = some { running := s.running, scheduled := s.running } := by
              simp [step, hs]
            rw [runLoop, hstep] at hr
            have hb := ih _ s' (by simp [hrun]) hr
            rw [hrun] at hb
            simp only [Bool.false_eq_true, if_false] at hb
            have hc : countFrames (Ev.frame :: rest) = countFrames rest + 1 := by
              simp [countFrames, List.countP_cons]
            rw [hc, if_pos hs]
            omega
          · exfalso
            have hstep : step s .frame = none := by simp [step, hs]
            rw [runLoop, hstep] at hr
            exact Option.noConfusion hr
      | stop =>
          have hstep : step s .stop = some { s with running := false } := rfl
          rw [runLoop, hstep] at hr
          have hb := ih _ s' rfl hr
          have : countFrames (Ev.stop :: rest) = countFrames rest := by
            simp [countFrames, List.countP_cons]
          rw [this]
          simpa using hb

/-! ## The world-matrix computation of the 3-D variant

`mainRenderLoop` in `part_001` (lines 145–166) computes once per frame
`angle = Date.now() / 1000 / 6 * 2 * Math.PI` and then
`mat4.rotate(this.worldMatrix, identityMatrix, angle, [0, 1, 0])`, where
`identityMatrix` holds `mat4.identity`.  Matrices are 16-element column-major
arrays; floating-point values are idealized as rationals, `Math.PI` is kept as a
symbolic parameter `piv`, and `cos angle` / `sin angle` are the parameters `c`
and `s` of `mat4Rotate`. -/

/-- The angle expression of `part_001` line 152, with the wall-clock milliseconds
`t` and `Math.PI` as parameters: `Date.now() / 1000 / 6 * 2 * Math.PI`. -/
def codeAngle (t piv : ℚ) : ℚ :=
  t / 1000 / 6 * 2 * piv

/-- `mat4.identity`: the 16-element column-major identity matrix. -/
def mat4IdentityL : List ℚ :=
  [1, 0, 0, 0,
   0, 1, 0, 0,
   0, 0, 1, 0,
   0, 0, 0, 1]

/-- gl-matrix `mat4.rotate(out, a, rad, axis)` for an output array distinct from
`a`, with `c = cos rad`, `s = sin rad` and a unit axis `(x, y, z)`.  gl-matrix
normalizes the axis first (bailing out when its length is below EPSILON); the
call site passes `[0, 1, 0]`, whose length is exactly 1, so normalization is the
identity there.  The body below transliterates the element formulas of
gl-matrix's `rotate`: `b` is the rotation matrix built from the axis and angle,
and the output is `a` multiplied by `b`, with the translation row of `a` copied
through. -/
def mat4Rotate (a : List ℚ) (c s x y z : ℚ) : List ℚ :=
  let t := 1 - c
  let a00 := a.getD 0 0
  let a01 := a.getD 1 0
  let a02 := a.getD 2 0
  let a03 := a.getD 3 0
  let a10 := a.getD 4 0
  let a11 := a.getD 5 0
  let a12 := a.getD 6 0
  let a13 := a.getD 7 0
  let a20 := a.getD 8 0
  let a21 := a.getD 9 0
  let a22 := a.getD 10 0
  let a23 := a.getD 11 0
  let b00 := x * x * t + c
  let b01 := y * x * t + z * s
  let b02 := z * x * t - y * s
  let b10 := x * y * t - z * s
  let b11 := y * y * t + c
  let b12 := z * y * t + x * s
  let b20 := x * z * t + y * s
  let b21 := y * z * t - x * s
  let b22 := z * z * t + c
  [a00 * b00 + a10 * b01 + a20 * b02,
   a01 * b00 + a11 * b01 + a21 * b02,
   a02 * b00 + a12 * b01 + a22 * b02,
   a03 * b00 + a13 * b01 + a23 * b02,
   a00 * b10 + a10 * b11 + a20 * b12,
   a01 * b10 + a11 * b11 + a21 * b12,
   a02 * b10 + a12 * b11 + a22 * b12,
   a03 * b10 + a13 * b11 + a23 * b12,
   a00 * b20 + a10 * b21 + a20 * b22,
   a01 * b20 + a11 * b21 + a21 * b22,
   a02 * b20 + a12 * b21 + a22 * b22,
   a03 * b20 + a13 * b21 + a23 * b22,
   a.getD 12 0, a.getD 13 0, a.getD 14 0, a.getD 15 0]

/-- The world matrix computed in one frame-loop iteration of the 3-D variant:
`mat4.rotate(worldMatrix, identityMatrix, angle, [0, 1, 0])`, with `c` and `s`
the cosine and sine of the angle. -/
def frameWorldMatrix (c s : ℚ) : List ℚ :=
  mat4Rotate mat4IdentityL c s 0 1 0

/-- Spec-side definition, following the spec's words: a rotation about the Y
axis (column-major, `c`/`s` the cosine and sine of the angle) applied to the
identity matrix — which is that rotation matrix itself. -/
def rotationAboutY (c s : ℚ) : List ℚ :=
  [c, 0, -s, 0,
   0, 1, 0, 0,
   s, 0, c, 0,
   0, 0, 0, 1]

/-! ## The GL call sequences

For the buffer-, draw- and uniform-related claims the programs are embedded as
the lists of WebGL calls they issue, in source order: one list for the
constructor's initialization (everything before `mainRenderLoop`) and one list
for a single frame-loop iteration.  Attribute and uniform names are the
identifiers looked up in the shader sources. -/

inductive ShaderKind
  | vertex
  | fragment
deriving DecidableEq, Repr

inductive Attrib
  | vertPosition
  | vertColor
deriving DecidableEq, Repr

inductive Uniform
  | matrixWorld
  | matrixView
  | matrixProjection
deriving DecidableEq, Repr

inductive DrawMode
  | triangles
  | lines
  | points
deriving DecidableEq, Repr

/-- Symbolic description of the 4×4 matrix handed to `uniformMatrix4fv`:
either the identity, the result of `mat4.lookAt(eye, center, up)`, the result of
`mat4.perspective(toRadian(fovyDegrees), aspect, near, far)`, or the world
matrix recomputed at wall-clock time `tMillis` (see `frameWorldMatrix`). -/
inductive MatValue
  | identityM
  | lookAtM (ex ey ez cx cy cz ux uy uz : ℚ)
  | perspectiveM (fovyDegrees aspect near far : ℚ)
  | rotatedWorld (tMillis : ℚ)
deriving DecidableEq, Repr

/-- One WebGL call, with the arguments the claims are about. -/
inductive GLCall
  | clearColor (r g b a : ℚ)
  | clear (colorBit depthBit : Bool)
  | createShader (k : ShaderKind)
  | shaderSource (k : ShaderKind)
  | compileShader (k : ShaderKind)
  | getShaderParameter (k : ShaderKind)
  | createProgram
  | attachShader (k : ShaderKind)
  | linkProgram
  | getProgramParameter
  | validateProgram
  | createBuffer
  | bindBuffer
  | bufferData (data : List ℚ)
  | getAttribLocation (a : Attrib)
  | vertexAttribPointer (a : Attrib) (size : Nat) (normalized : Bool)
      (strideBytes offsetBytes : Nat)
  | enableVertexAttribArray (a : Attrib)
  | useProgram
  | getUniformLocation (u : Uniform)
  | uniformMatrix4fv (u : Uniform) (transpose : Bool) (value : MatValue)
  | drawArrays (mode : DrawMode) (first count : Nat)
deriving DecidableEq, Repr

/-- The vertex data of the 2-D variant (`src/cube.ts` lines 75–80):
3 vertices, each `x, y, R, G, B`. -/
def triangleVertices2D : List ℚ :=
  [0, 1/2, 1, 0, 0,
   -1/2, -1/2, 0, 1, 0,
   1/2, -1/2, 0, 0, 1]

/-- The vertex data of the 3-D variant (`part_001` lines 77–82):
3 vertices, each `x, y, z, R, G, B`. -/
def triangleVertices3D : List ℚ :=
  [0, 1/2, 0, 1, 0, 0,
   -1/2, -1/2, 0, 0, 1, 0,
   1/2, -1/2, 0, 0, 0, 1]

/-- GL calls issued by the constructor of the 2-D variant (`src/cube.ts`
lines 12–25: `setClearColor`, `clearScreen`, `createShaders`, `createProgram`,
`createBuffer`), in source order, before `mainRenderLoop` starts. -/
def initCalls2D : List GLCall :=
  [.clearColor (3/4) (17/20) (4/5) 1,
   .clear true true,
   .createShader .vertex, .shaderSource .vertex, .compileShader .vertex,
   .getShaderParameter .vertex,
   .createShader .fragment, .shaderSource .fragment, .compileShader .fragment,
   .getShaderParameter .fragment,
   .createProgram, .attachShader .vertex, .attachShader .fragment,
   .linkProgram, .getProgramParameter, .validateProgram, .getProgramParameter,
   .createBuffer, .bindBuffer, .bufferData triangleVertices2D,
   .getAttribLocation .vertPosition, .getAttribLocation .vertColor,
   .vertexAttribPointer .vertPosition 2 false (5 * 4) 0,
   .vertexAttribPointer .vertColor 3 false (5 * 4) (2 * 4),
   .enableVertexAttribArray .vertPosition, .enableVertexAttribArray .vertColor]

/-- GL calls of one frame-loop iteration of the 2-D variant (`src/cube.ts`
lines 121–131): clear, bind the program, draw. -/
def frameCalls2D : List GLCall :=
  [.clear true true, .useProgram, .drawArrays .triangles 0 3]

/-- GL calls issued by the constructor of the 3-D variant (`part_001`
lines 11–25 and 76–137), in source order, before `mainRenderLoop` starts.
`createBuffer` there additionally binds the program, looks up the three matrix
uniforms and uploads them once: world = identity,
view = `mat4.lookAt(viewMatrix, [0,0,-2], [0,0,0], [0,1,0])`,
projection = `mat4.perspective(projectionMatrix, glMatrix.toRadian(45), 800/600, 0.1, 1000.1)`. -/
def initCalls3D : List GLCall :=
  [.clearColor (3/4) (17/20) (4/5) 1,
   .clear true true,
   .createShader .vertex, .shaderSource .vertex, .compileShader .vertex,
   .getShaderParameter .vertex,
   .createShader .fragment, .shaderSource .fragment, .compileShader .fragment,
   .getShaderParameter .fragment,
   .createProgram, .attachShader .vertex, .attachShader .fragment,
   .linkProgram, .getProgramParameter, .validateProgram, .getProgramParameter,
   .createBuffer, .bindBuffer, .bufferData triangleVertices3D,
   .getAttribLocation .vertPosition, .getAttribLocation .vertColor,
   .vertexAttribPointer .vertPosition 3 false (6 * 4) 0,
   .vertexAttribPointer .vertColor 3 false (6 * 4) (3 * 4),
   .enableVertexAttribArray .vertPosition, .enableVertexAttribArray .vertColor,
   .useProgram,
   .getUniformLocation .matrixWorld, .getUniformLocation .matrixView,
   .getUniformLocation .matrixProjection,
   .uniformMatrix4fv .matrixWorld false .identityM,
   .uniformMatrix4fv .matrixView false (.lookAtM 0 0 (-2) 0 0 0 0 1 0),
   .uniformMatrix4fv .matrixProjection false
     (.perspectiveM 45 (800/600) (1/10) (10001/10))]

/-- GL calls of one frame-loop iteration of the 3-D variant (`part_001`
lines 150–164), run at wall-clock time `t` milliseconds: re-upload the world
matrix recomputed from `t`, then clear, then draw.  (`mat4.rotate` itself is a
library computation, not a GL call; its result is the payload of the upload.) -/
def frameCalls3D (t : ℚ) : List GLCall :=
  [.uniformMatrix4fv .matrixWorld false (.rotatedWorld t),
   .clear true true,
   .drawArrays .triangles 0 3]

/-- Is this call an upload of vertex data? -/
def isBufferData : GLCall → Bool
  | .bufferData _ => true
  | _ => false

/-- Is this call a draw call? -/
def isDraw : GLCall → Bool
  | .drawArrays _ _ _ => true
  | _ => false

/-- Is this call an upload of the given uniform matrix? -/
def isUniformUpload (u : Uniform) : GLCall → Bool
  | .uniformMatrix4fv v _ _ => u == v
  | _ => false

/-- Is this call an upload of any uniform matrix? -/
def isAnyUniformUpload : GLCall → Bool
  | .uniformMatrix4fv _ _ _ => true
  | _ => false

/-! ## Failure handling and control flow under a status oracle

`addShader` (`part_001` lines 42–53, identically `src/cube.ts` lines 43–54)
creates a shader, compiles it, queries `COMPILE_STATUS`, logs on failure and
returns the shader regardless.  `createProgram` (lines 56–71) links, queries
`LINK_STATUS`, validates, queries `VALIDATE_STATUS`, logs on each failure, and
keeps the program regardless.  Nothing throws; the constructor always proceeds
to `createBuffer` and `mainRenderLoop`.  The four status queries are abstracted
as an oracle of four booleans. -/

/-- The status flags the GL implementation would report for this run. -/
structure GLOracle where
  vertexCompileOk : Bool
  fragmentCompileOk : Bool
  linkOk : Bool
  validateOk : Bool
deriving DecidableEq, Repr

/-- `addShader`: the created handle is returned whether or not compilation
succeeded; on failure one console error is emitted. -/
def addShader (handle : Nat) (compileOk : Bool) : Nat × List String :=
  (handle, if compileOk then [] else ["Error compiling shader "])

/-- `createProgram`: the program handle is kept whether or not linking and
validation succeeded; each failed status query emits one console error. -/
def createProgramStep (handle : Nat) (linkOk validateOk : Bool) :
    Nat × List String :=
  (handle,
    (if linkOk then [] else ["Could not link program"]) ++
    (if validateOk then [] else ["ERROR invalidating program"]))

/-- The constructor phases, in source order. -/
inductive Phase
  | setClearColor
  | clearScreen
  | createShaders
  | createProgramPhase
  | createBufferPhase
  | mainRenderLoop
deriving DecidableEq, Repr

/-- Outcome of running the constructor under a status oracle. -/
structure InitResult where
  vertexShader : Nat
  fragmentShader : Nat
  program : Nat
  consoleErrors : List String
  phases : List Phase
deriving DecidableEq, Repr

/-- The constructor of either variant under a status oracle: every phase runs
unconditionally and in order; handles 1, 2, 3 stand for the vertex shader, the
fragment shader and the program; console errors accumulate in emission order. -/
def constructorRun (o : GLOracle) : InitResult :=
  let vs := addShader 1 o.vertexCompileOk
  let fs := addShader 2 o.fragmentCompileOk
  let pr := createProgramStep 3 o.linkOk o.validateOk
  { vertexShader := vs.1
    fragmentShader := fs.1
    program := pr.1
    consoleErrors := vs.2 ++ fs.2 ++ pr.2
    phases := [.setClearColor, .clearScreen, .createShaders,
               .createProgramPhase, .createBufferPhase, .mainRenderLoop] }

/-! ## Context acquisition

Both constructors (`src/cube.ts` lines 13–17, `part_000` lines 7–11, `part_001`
lines 12–16) run `this.gl = this.canvas.getContext("webgl")` and then, only if
that was null, `this.gl = this.canvas.getContext("experimental-webgl")`.  The
host's `getContext` is abstracted as two optional handles. -/

/-- What `canvas.getContext` would return for each of the two names. -/
structure ContextOracle where
  webgl : Option Nat
  experimentalWebgl : Option Nat
deriving DecidableEq, Repr

/-- Context acquisition: the resulting `this.gl` together with the list of
context names requested, in order. -/
def acquireContext (o : ContextOracle) : Option Nat × List String :=
  match o.webgl with
  | some c => (some c, ["webgl"])
  | none => (o.experimentalWebgl, ["webgl", "experimental-webgl"])

/-- Spec-side definition, following the claim's words for the per-frame order of
the 3-D variant: first clear the color and depth buffers, then re-upload the
recomputed world-matrix uniform, then issue the draw. -/
def claimedFrameCalls3D (t : ℚ) : List GLCall :=
  [.clear true true,
   .uniformMatrix4fv .matrixWorld false (.rotatedWorld t),
   .drawArrays .triangles 0 3]

theorem stopAt_getElem?_ne :
    ∀ (l : List App) (i j : Nat), j ≠ i → (stopAt l i)[j]? = l[j]? := by
  intro l
  induction l with
  | nil => intro i j _; cases i <;> rfl
  | cons a rest ih =>
      intro i j hne
      cases i with
      | zero =>
          cases j with
          | zero => exact absurd rfl hne
          | succ k => simp [stopAt]
      | succ i' =>
          cases j with
          | zero => simp [stopAt]
          | succ k =>
              have hk : k ≠ i' := fun h => hne (by rw [h])
              simp [stopAt, ih i' k hk]

theorem stopAt_getElem?_eq :
    ∀ (l : List App) (i : Nat), (stopAt l i)[i]? = (l[i]?).map App.stop := by
  intro l
  induction l with
  | nil => intro i; cases i <;> rfl
  | cons a rest ih =>
      intro i
      cases i with
      | zero => simp [stopAt]
      | succ i' => simp [stopAt, ih i']

/-- C1: In the 3-D variant, the world matrix computed in each frame-loop
iteration equals a rotation about the Y axis, applied to the identity matrix,
by angle = (wall-clock milliseconds / 6000) × 2π.  Here `t` is `Date.now()` in
milliseconds, `piv` stands for `Math.PI`, and `c`, `s` for the cosine and sine
of the frame's angle. -/
theorem world_matrix_is_y_rotation (t piv c s : ℚ) :
    codeAngle t piv = t / 6000 * (2 * piv) ∧
    frameWorldMatrix c s = rotationAboutY c s := by
  constructor
  · unfold codeAngle
    ring
  · unfold frameWorldMatrix mat4Rotate mat4IdentityL rotationAboutY
    norm_num

/-- C2: `stop()` clears the running flag, the loop observes the flag only after
drawing each frame, and after `stop()` runs at most one further frame fires:
in every valid event sequence, at most one `frame` event follows a `stop`
event. -/
theorem stop_schedules_at_most_one_frame (pre post : List Ev) (s' : LoopState)
    (h : runLoop initLoop (pre ++ Ev.stop :: post) = some s') :
    countFrames post ≤ 1 := by
  rw [runLoop_append] at h
  cases hpre : runLoop initLoop pre with
  | none =>
      rw [hpre] at h
      exact absurd h (by simp)
  | some s1 =>
      rw [hpre] at h
      simp only [Option.bind] at h
      have hstop : step s1 .stop = some { s1 with running := false } := rfl
      rw [runLoop, hstop] at h
      have hb := frames_bounded_of_not_running post _ s' rfl h
      by_cases hs : s1.scheduled
      · simpa [hs] using hb
      · have : countFrames post ≤ 0 := by simpa [hs] using hb
        omega

theorem stop_schedules_at_most_one_frame_witness :
    countFrames [Ev.frame] ≤ 1 :=
  stop_schedules_at_most_one_frame [Ev.frame] [Ev.frame]
    { running := false, scheduled := false } (by decide)

/-- C3: the vertex buffer is filled exactly once, at initialization, with the
3 source-literal vertices (5 floats per vertex in the 2-D variant, 6 in the
3-D variant), no frame-loop iteration refills or resizes it, and every draw
call in either program is `drawArrays(TRIANGLES, 0, 3)`. -/
theorem vertex_buffer_static_three_vertices (t : ℚ) :
    triangleVertices2D.length = 3 * 5 ∧
    triangleVertices3D.length = 3 * 6 ∧
    initCalls2D.filter isBufferData = [.bufferData triangleVertices2D] ∧
    initCalls3D.filter isBufferData = [.bufferData triangleVertices3D] ∧
    frameCalls2D.filter isBufferData = [] ∧
    (frameCalls3D t).filter isBufferData = [] ∧
    (initCalls2D ++ frameCalls2D).filter isDraw = [.drawArrays .triangles 0 3] ∧
    (initCalls3D ++ frameCalls3D t).filter isDraw = [.drawArrays .triangles 0 3] :=
  ⟨rfl, rfl, rfl, rfl, rfl, rfl, rfl, rfl⟩

/-- C4: for every combination of compile/link/validate outcomes, the shader and
program handles are returned and retained, exactly one diagnostic is written per
failed status query (and none otherwise), no exception interrupts the run, and
the constructor still executes every remaining phase through the frame loop. -/
theorem shader_failures_logged_and_ignored (o : GLOracle) :
    (constructorRun o).vertexShader = 1 ∧
    (constructorRun o).fragmentShader = 2 ∧
    (constructorRun o).program = 3 ∧
    (constructorRun o).phases =
      [.setClearColor, .clearScreen, .createShaders,
       .createProgramPhase, .createBufferPhase, .mainRenderLoop] ∧
    (constructorRun o).consoleErrors.length =
      ((if o.vertexCompileOk then 0 else 1) + (if o.fragmentCompileOk then 0 else 1)
        + (if o.linkOk then 0 else 1) + (if o.validateOk then 0 else 1)) ∧
    (("Error compiling shader " ∈ (constructorRun o).consoleErrors) ↔
      (o.vertexCompileOk = false ∨ o.fragmentCompileOk = false)) ∧
    (("Could not link program" ∈ (constructorRun o).consoleErrors) ↔
      o.linkOk = false) ∧
    (("ERROR invalidating program" ∈ (constructorRun o).consoleErrors) ↔
      o.validateOk = false) := by
  obtain ⟨v, f, l, va⟩ := o
  cases v <;> cases f <;> cases l <;> cases va <;> decide

/-- C5: two `App` instances share no state: `stop()` on either one clears only
that instance's flag and leaves the other instance — all its handles and its
flag — unchanged. -/
theorem instances_share_no_state (p : App × App) :
    (stopFirst p).2 = p.2 ∧
    (stopFirst p).1 = { p.1 with running := false } ∧
    (stopSecond p).1 = p.1 ∧
    (stopSecond p).2 = { p.2 with running := false } :=
  ⟨rfl, rfl, rfl, rfl⟩

/-- C6, counterexample: the running flag is not a single process-wide boolean.
With two concrete instances, invoking `stop()` through the first leaves the
flag read through the second still true — which a single shared flag would
forbid. -/
theorem running_flag_not_process_wide :
    ¬ ((stopFirst (appA, appB)).2.running = false) := by
  decide

/-- C6, amended: the running flag is per-instance state — each `App` instance
holds its own boolean flag, toggled from true to false to terminate that
instance's frame loop — and `stop()` on instance `i` of any collection of
instances mutates nothing but instance `i`'s flag. -/
theorem running_flag_per_instance (l : List App) (i j : Nat) (a : App)
    (h : j ≠ i) :
    (stopAt l i)[j]? = l[j]? ∧
    (stopAt l i)[i]? = (l[i]?).map App.stop ∧
    (App.stop a).running = false ∧
    (App.stop a).canvas = a.canvas ∧
    (App.stop a).gl = a.gl ∧
    (App.stop a).vertexShader = a.vertexShader ∧
    (App.stop a).fragmentShader = a.fragmentShader ∧
    (App.stop a).program = a.program :=
  ⟨stopAt_getElem?_ne l i j h, stopAt_getElem?_eq l i,
   rfl, rfl, rfl, rfl, rfl, rfl⟩

theorem running_flag_per_instance_witness :
    (stopAt [appA, appB] 0)[1]? = [appA, appB][1]? ∧
    (stopAt [appA, appB] 0)[0]? = ([appA, appB][0]?).map App.stop ∧
    (App.stop appA).running = false ∧
    (App.stop appA).canvas = appA.canvas ∧
    (App.stop appA).gl = appA.gl ∧
    (App.stop appA).vertexShader = appA.vertexShader ∧
    (App.stop appA).fragmentShader = appA.fragmentShader ∧
    (App.stop appA).program = appA.program :=
  running_flag_per_instance [appA, appB] 0 1 appA (by decide)

/-- C7: the context is acquired by requesting "webgl" first; the
"experimental-webgl" name is requested exactly when the first request returned
no context, and whatever the second request returns (possibly nothing) becomes
the context — no further fallback or handling follows. -/
theorem context_fallback_order (o : ContextOracle) :
    (acquireContext o).2 =
      (if o.webgl.isSome then ["webgl"] else ["webgl", "experimental-webgl"]) ∧
    (acquireContext o).1 = o.webgl.orElse (fun _ => o.experimentalWebgl) := by
  obtain ⟨w, e⟩ := o
  cases w <;> simp [acquireContext, Option.orElse]

/-- C8, counterexample: a frame-loop iteration of the 3-D variant does not
perform the claimed order (clear first, then recompute/re-upload the world
uniform, then draw): at wall-clock time 0 its call list differs from the
claimed one — the uniform upload precedes the clear. -/
theorem frame_order_differs_from_claim :
    frameCalls3D 0 ≠ claimedFrameCalls3D 0 := by
  decide

/-- C8, amended: each frame-loop iteration of the 3-D variant recomputes the
world transform from elapsed time and re-uploads that one uniform, then clears
the color and depth buffers, then issues a single non-indexed draw of 3
vertices as a triangle list; the 2-D variant clears, binds the program, then
issues the same draw.  The clear color is the fixed pastel set once at
initialization. -/
theorem frame_iteration_order (t : ℚ) :
    frameCalls3D t =
      [.uniformMatrix4fv .matrixWorld false (.rotatedWorld t),
       .clear true true,
       .drawArrays .triangles 0 3] ∧
    frameCalls2D = [.clear true true, .useProgram, .drawArrays .triangles 0 3] ∧
    initCalls2D.head? = some (.clearColor (3/4) (17/20) (4/5) 1) ∧
    initCalls3D.head? = some (.clearColor (3/4) (17/20) (4/5) 1) :=
  ⟨rfl, rfl, rfl, rfl⟩

/-- C9: `stop()` is idempotent and the flag is monotone: stopping twice equals
stopping once, and no event of the loop protocol (a frame firing or another
`stop()`) ever turns the flag back on once it is false. -/
theorem stop_idempotent_flag_monotone (a : App) (s : LoopState) (e : Ev)
    (s' : LoopState) (hstep : step s e = some s') (hrun : s.running = false) :
    (a.stop).stop = a.stop ∧ s'.running = false := by
  refine ⟨rfl, ?_⟩
  cases e with
  | frame =>
      simp only [step] at hstep
      by_cases hs : s.scheduled
      · rw [if_pos hs] at hstep
        have hinj := Option.some.inj hstep
        rw [← hinj]
        exact hrun
      · rw [if_neg hs] at hstep
        exact absurd hstep (by simp)
  | stop =>
      have hinj := Option.some.inj hstep
      rw [← hinj]

theorem stop_idempotent_flag_monotone_witness :
    (appA.stop).stop = appA.stop ∧
    (LoopState.mk false false).running = false :=
  stop_idempotent_flag_monotone appA { running := false, scheduled := true }
    .frame { running := false, scheduled := false } (by decide) rfl

/-- C10: in the 3-D variant the view and projection uniforms are uploaded
exactly once, at initialization, with the source parameters
(`lookAt` of eye (0,0,-2), center (0,0,0), up (0,1,0); `perspective` of a
45-degree field of view, 800/600 aspect, near 0.1, far 1000.1); no frame-loop
iteration re-uploads either, and the only uniform a frame re-uploads is the
world matrix. -/
theorem view_projection_uploaded_once (t : ℚ) :
    initCalls3D.filter (isUniformUpload .matrixView) =
      [.uniformMatrix4fv .matrixView false (.lookAtM 0 0 (-2) 0 0 0 0 1 0)] ∧
    initCalls3D.filter (isUniformUpload .matrixProjection) =
      [.uniformMatrix4fv .matrixProjection false
        (.perspectiveM 45 (800/600) (1/10) (10001/10))] ∧
    (frameCalls3D t).filter (isUniformUpload .matrixView) = [] ∧
    (frameCalls3D t).filter (isUniformUpload .matrixProjection) = [] ∧
    (frameCalls3D t).filter isAnyUniformUpload =
      [.uniformMatrix4fv .matrixWorld false (.rotatedWorld t)] :=
  ⟨rfl, rfl, rfl, rfl, rfl⟩

end WebGLDemo
